import Mathlib

/-!
Verification of `@softwareventures/format-date-time` (src/index.ts).

The development shallowly embeds the two functions of the library core —
the template composer `dateTimeTemplate` and the ISO-8601 profile builder
`iso8601` — together with the external per-field formatters they consume.

Modelling notes:
* A JavaScript value of type `DateTimeFormatter | undefined` is embedded as
  `Option DateTimeFormatter`; the optional-call `formatters[i]?.(dateTime)`
  followed by `join("")` renders `undefined` as the empty string, embedded
  by `applyFormatter`.
* `concatMap(texts, (text, i) => [text, formatters[i]?.(dateTime)]).join("")`
  is embedded index-faithfully: enumerate `texts`, map each `(i, text)` to
  the two-element list `[text, formatters[i] applied or ""]`, flatten, and
  join.
* The option records of `iso8601` hold raw strings (the JavaScript runtime
  view). An object-literal dispatch table lookup is embedded as the
  own-property access: a key outside the table's domain yields
  `Option.none`, as property access yields `undefined` — except for keys
  naming members inherited from `Object.prototype` (see
  `objectPrototypeProps`), which in JavaScript retrieve the inherited
  member; those keys are outside the model and no theorem depends on the
  lookups' value there.
-/

/-- A calendar date plus time-of-day, decomposable into year, month, day,
hour, minute, whole seconds, fractional-second decimal digits, and
day-of-week. The fractional digits are kept as the decimal digit string of
the available precision (empty when the seconds value is integral). -/
structure DateTime where
  year : Nat
  month : Nat
  day : Nat
  hours : Nat
  minutes : Nat
  secondsWhole : Nat
  secondsFrac : String
  dayOfWeek : Nat
deriving DecidableEq, Repr

/-- A function that formats a `DateTime` or part of a `DateTime` as a
string. -/
def DateTimeFormatter : Type := DateTime → String

/-- Renders an optional formatter value the way `join("")` renders the
result of the optional call `formatters[i]?.(dateTime)`: a missing
formatter contributes the empty string. -/
def applyFormatter (f : Option DateTimeFormatter) (dateTime : DateTime) : String :=
  match f with
  | some g => g dateTime
  | Option.none => ""

/-- Embedding of `dateTimeTemplate` (src/index.ts):
`dateTime => concatMap(texts, (text, i) => [text, formatters[i]?.(dateTime)]).join("")`.
`concatMap` maps each element (with its index) to a list and flattens;
`join("")` concatenates, rendering `undefined` as the empty string. -/
def dateTimeTemplate (texts : List String) (formatters : List (Option DateTimeFormatter)) :
    DateTimeFormatter :=
  fun dateTime =>
    String.join
      (List.flatten
        ((texts.enum).map fun ti =>
          [ti.2, applyFormatter (formatters.getD ti.1 Option.none) dateTime]))

/-- Left-pads a numeral with zeroes to at least two digits. -/
def pad2 (n : Nat) : String :=
  if n < 10 then "0" ++ toString n else toString n

/-- Modelled from the spec: `year4` (re-exported from
`@softwareventures/format-date`, code not in this repository) formats the
year as a numeric string zero-padded to at least four digits. -/
def year4 (d : DateTime) : String :=
  String.mk (List.replicate (4 - (toString d.year).length) '0') ++ toString d.year

/-- Modelled from the spec: `month2` (re-exported from
`@softwareventures/format-date`) formats the month as a 2-digit numeric
string. -/
def month2 (d : DateTime) : String := pad2 d.month

/-- Modelled from the spec: `day2` (re-exported from
`@softwareventures/format-date`) formats the day as a 2-digit numeric
string. -/
def day2 (d : DateTime) : String := pad2 d.day

/-- Modelled from the spec: `hours2` (re-exported from
`@softwareventures/format-time`) formats the hours as a 2-digit 24-hour
numeric string. -/
def hours2 (d : DateTime) : String := pad2 d.hours

/-- Modelled from the spec: `minutes2` (re-exported from
`@softwareventures/format-time`) formats the minutes as a 2-digit numeric
string. -/
def minutes2 (d : DateTime) : String := pad2 d.minutes

/-- Modelled from the spec: `seconds2` (re-exported from
`@softwareventures/format-time`) formats the seconds with the whole part
zero-padded to at least two digits and the full available fractional
precision, unrounded. -/
def seconds2 (d : DateTime) : String :=
  pad2 d.secondsWhole ++ (if d.secondsFrac = "" then "" else "." ++ d.secondsFrac)

/-- Modelled from the spec: `floorSeconds2` (re-exported from
`@softwareventures/format-time`) rounds the seconds down to a whole second
and formats them as a 2-digit numeric string with no fractional part. -/
def floorSeconds2 (d : DateTime) : String := pad2 d.secondsWhole

/-- Modelled from the spec: `secondsMs` (re-exported from
`@softwareventures/format-time`) rounds the seconds down to the next lower
millisecond and formats them as a 2.3-digit string: two integer digits and
exactly three fractional digits, zero-padded when fewer are available. -/
def secondsMs (d : DateTime) : String :=
  pad2 d.secondsWhole ++ "." ++ d.secondsFrac.take 3
    ++ String.mk (List.replicate (3 - (d.secondsFrac.take 3).length) '0')

/-- Options for formatting a `DateTime` in ISO 8601 format, as seen by the
JavaScript runtime: each field is either absent (`Option.none`) or an
arbitrary string, of which only the documented domain values are
well-typed. -/
structure Iso8601Options where
  format : Option String := Option.none
  round : Option String := Option.none
  timeDelimiter : Option String := Option.none
deriving DecidableEq, Repr

/-- Property names a JavaScript object literal inherits from
`Object.prototype`. Property access with one of these keys returns the
inherited member rather than `undefined` (for example `"toString"` yields
a callable and `"__proto__"` a non-function that throws when called), so
the own-property lookup embeddings below are faithful only for keys
outside this set; no theorem relies on a lookup's value at a key in it. -/
def objectPrototypeProps : List String :=
  ["constructor", "hasOwnProperty", "isPrototypeOf", "propertyIsEnumerable",
   "toLocaleString", "toString", "valueOf", "__proto__",
   "__defineGetter__", "__defineSetter__", "__lookupGetter__", "__lookupSetter__"]

/-- Embedding of the own-property access of the object-literal dispatch
`{basic: () => "", extended: () => "-"}[key]`: the separator formatter for
a known key and `undefined` otherwise. Keys in `objectPrototypeProps`
retrieve an inherited member in JavaScript and are outside this model. -/
def dateSeparatorLookup (key : String) : Option DateTimeFormatter :=
  if key = "basic" then some fun _ => ""
  else if key = "extended" then some fun _ => "-"
  else Option.none

/-- Embedding of the own-property access of the object-literal dispatch
`{basic: () => "", extended: () => ":"}[key]`; keys in
`objectPrototypeProps` are outside this model. -/
def timeSeparatorLookup (key : String) : Option DateTimeFormatter :=
  if key = "basic" then some fun _ => ""
  else if key = "extended" then some fun _ => ":"
  else Option.none

/-- Embedding of the own-property access of the object-literal dispatch
`{none: seconds2, seconds: floorSeconds2, ms: secondsMs}[key]`; keys in
`objectPrototypeProps` are outside this model. -/
def secondsLookup (key : String) : Option DateTimeFormatter :=
  if key = "none" then some seconds2
  else if key = "seconds" then some floorSeconds2
  else if key = "ms" then some secondsMs
  else Option.none

/-- Embedding of `iso8601` (src/index.ts): select the separators, the time
delimiter and the seconds formatter from the options (with `?? default`
for absent fields), then build the tagged template
`${year4}${dateSeparator}${month2}${dateSeparator}${day2}${timeDelimiter}${hours2}${timeSeparator}${minutes2}${timeSeparator}${seconds}`
whose literal fragments are twelve empty strings. -/
def iso8601 (options : Iso8601Options := {}) : DateTimeFormatter :=
  let dateSeparator := dateSeparatorLookup (options.format.getD "extended")
  let timeDelimiter : Option DateTimeFormatter := some fun _ => options.timeDelimiter.getD "T"
  let timeSeparator := timeSeparatorLookup (options.format.getD "extended")
  let seconds := secondsLookup (options.round.getD "none")
  dateTimeTemplate ["", "", "", "", "", "", "", "", "", "", "", ""]
    [some year4, dateSeparator, some month2, dateSeparator, some day2, timeDelimiter,
     some hours2, timeSeparator, some minutes2, timeSeparator, seconds]

/-- Lockstep recursion characterising one invocation of the composed
formatter: each literal fragment is followed by the matching formatter's
output, with the empty string once the formatter list is exhausted. -/
def templateRun (d : DateTime) : List String → List (Option DateTimeFormatter) → String
  | [], _ => ""
  | t :: ts, [] => t ++ applyFormatter Option.none d ++ templateRun d ts []
  | t :: ts, f :: fs => t ++ applyFormatter f d ++ templateRun d ts fs

/-- The spec's structural law, written from its words: the output is
`texts[0] + f0(d) + texts[1] + f1(d) + ... + texts[n]`, substituting the
empty string for any formatter index beyond the supplied list. -/
def specInterleave (texts : List String) (formatters : List DateTimeFormatter)
    (d : DateTime) : String :=
  match texts, formatters with
  | [], _ => ""
  | t :: ts, [] => t ++ specInterleave ts [] d
  | t :: ts, f :: fs => t ++ f d ++ specInterleave ts fs d

/-- The documented option domains (the TypeScript type `Iso8601Options`):
each field absent or drawn from its enumeration. -/
def ValidOptions (o : Iso8601Options) : Prop :=
  (o.format = Option.none ∨ o.format = some "basic" ∨ o.format = some "extended")
    ∧ (o.round = Option.none ∨ o.round = some "none" ∨ o.round = some "seconds"
        ∨ o.round = some "ms")
    ∧ (o.timeDelimiter = Option.none ∨ o.timeDelimiter = some "T"
        ∨ o.timeDelimiter = some " ")

instance (o : Iso8601Options) : Decidable (ValidOptions o) := by
  unfold ValidOptions
  infer_instance

/-- The spec's date-component separator rule: empty for `basic`, `"-"`
otherwise (default `extended`). -/
def specDateSeparator (o : Iso8601Options) : String :=
  if o.format = some "basic" then "" else "-"

/-- The spec's time-component separator rule: empty for `basic`, `":"`
otherwise (default `extended`). -/
def specTimeSeparator (o : Iso8601Options) : String :=
  if o.format = some "basic" then "" else ":"

/-- The spec's time-delimiter rule: the `timeDelimiter` option, default
`"T"`. -/
def specTimeDelimiter (o : Iso8601Options) : String :=
  o.timeDelimiter.getD "T"

/-- The spec's seconds-formatter selection rule: `seconds2` for `none`
(the default), `floorSeconds2` for `seconds`, `secondsMs` for `ms`. -/
def specSecondsFormatter (o : Iso8601Options) : DateTimeFormatter :=
  if o.round = some "seconds" then floorSeconds2
  else if o.round = some "ms" then secondsMs
  else seconds2

/-- The date-time 2024-01-26T11:57:23.723615 (a Friday), the spec's worked
example value. -/
def exampleDateTime : DateTime :=
  { year := 2024, month := 1, day := 26, hours := 11, minutes := 57,
    secondsWhole := 23, secondsFrac := "723615", dayOfWeek := 5 }

/-- Prepends a string onto the first literal fragment of a text list (used
to describe splicing an inner template into an outer one). -/
def mergeFirst (u : String) : List String → List String
  | [] => [u]
  | v :: vs => (u ++ v) :: vs

/-- Appends a string onto the last literal fragment of a text list. -/
def mergeLast : List String → String → List String
  | [], w => [w]
  | [v], w => [v ++ w]
  | v :: v' :: vs, w => v :: mergeLast (v' :: vs) w

/-- The literal fragments obtained by splicing an inner template's texts
between the outer fragments `u` and `w`: the inner's first fragment merges
with `u` and its last fragment merges with `w`. -/
def spliceTexts (u : String) (inner : List String) (w : String) : List String :=
  mergeLast (mergeFirst u inner) w

/-- A field formatter that may fail, modelling a JavaScript formatter that
may throw an exception of type `ε`. -/
def DateTimeFormatterE (ε : Type) : Type := DateTime → Except ε String

/-- The template composer under Except-valued field formatters: the same
interleaving as `dateTimeTemplate`, evaluated left to right, where a
formatter's exception aborts the whole call and propagates unmodified
(JavaScript exception semantics of the `concatMap` callback). -/
def dateTimeTemplateE {ε : Type} (texts : List String)
    (formatters : List (Option (DateTimeFormatterE ε))) (d : DateTime) : Except ε String :=
  match texts, formatters with
  | [], _ => Except.ok ""
  | t :: ts, [] => do
    let r ← dateTimeTemplateE ts ([] : List (Option (DateTimeFormatterE ε))) d
    pure (t ++ r)
  | t :: ts, f :: fs => do
    let v ← match f with
      | some g => g d
      | Option.none => pure ""
    let r ← dateTimeTemplateE ts fs d
    pure (t ++ v ++ r)

theorem String.join_cons (a : String) (l : List String) :
    String.join (a :: l) = a ++ String.join l := by
  simp only [String.join_eq, List.map_cons, List.flatten_cons]
  apply String.ext
  simp [String.data_append]

theorem getD_eq_headD_drop {α : Type} (l : List α) (n : Nat) (a : α) :
    l.getD n a = (l.drop n).headD a := by
  induction l generalizing n with
  | nil => simp
  | cons x xs ih =>
    cases n with
    | zero => simp
    | succ m => exact ih m

theorem drop_succ_eq_tail_drop {α : Type} (l : List α) (n : Nat) :
    l.drop (n + 1) = (l.drop n).tail := by
  induction l generalizing n with
  | nil => simp
  | cons x xs ih =>
    cases n with
    | zero => simp
    | succ m => exact ih m

theorem dateTimeTemplate_enumFrom (d : DateTime) (ts : List String)
    (fs : List (Option DateTimeFormatter)) (n : Nat) :
    String.join
      (List.flatten
        ((List.enumFrom n ts).map fun ti =>
          [ti.2, applyFormatter (fs.getD ti.1 Option.none) d]))
      = templateRun d ts (fs.drop n) := by
  induction ts generalizing n with
  | nil => simp [templateRun, String.join]
  | cons t ts ih =>
    have hcons : List.enumFrom n (t :: ts) = (n, t) :: List.enumFrom (n + 1) ts := rfl
    rw [hcons, List.map_cons, List.flatten_cons]
    simp only [List.cons_append, List.nil_append]
    rw [String.join_cons, String.join_cons]
    rw [ih (n + 1)]
    rw [getD_eq_headD_drop, drop_succ_eq_tail_drop]
    cases h : fs.drop n with
    | nil => simp [templateRun, String.append_assoc]
    | cons f rest => simp [templateRun, String.append_assoc]

theorem dateTimeTemplate_eq_templateRun (texts : List String)
    (formatters : List (Option DateTimeFormatter)) (d : DateTime) :
    dateTimeTemplate texts formatters d = templateRun d texts formatters := by
  have h := dateTimeTemplate_enumFrom d texts formatters 0
  simpa [dateTimeTemplate, List.enum] using h

theorem templateRun_cons_unfold (d : DateTime) (t : String) (ts : List String)
    (fs : List (Option DateTimeFormatter)) :
    templateRun d (t :: ts) fs
      = t ++ applyFormatter (fs.getD 0 Option.none) d ++ templateRun d ts fs.tail := by
  cases fs <;> rfl

theorem templateRun_append (d : DateTime) (A B : List String)
    (F G : List (Option DateTimeFormatter)) (h : A.length = F.length) :
    templateRun d (A ++ B) (F ++ G) = templateRun d A F ++ templateRun d B G := by
  induction A generalizing F with
  | nil =>
    cases F with
    | nil => simp [templateRun, String.empty_append]
    | cons f fs => simp at h
  | cons t A ih =>
    cases F with
    | nil => simp at h
    | cons f F =>
      simp only [List.cons_append, templateRun, List.append_eq]
      rw [ih F (by simpa using h)]
      simp [String.append_assoc]

theorem templateRun_take (d : DateTime) (ts : List String)
    (fs : List (Option DateTimeFormatter)) :
    templateRun d ts (fs.take ts.length) = templateRun d ts fs := by
  induction ts generalizing fs with
  | nil => simp [templateRun]
  | cons t ts ih =>
    cases fs with
    | nil => simp [templateRun]
    | cons f fs =>
      simp only [List.length_cons, List.take_succ_cons, templateRun]
      rw [ih fs]

theorem templateRun_map_some (d : DateTime) (ts : List String)
    (fs : List DateTimeFormatter) :
    templateRun d ts (fs.map some) = specInterleave ts fs d := by
  induction ts generalizing fs with
  | nil => cases fs <;> simp [templateRun, specInterleave]
  | cons t ts ih =>
    cases fs with
    | nil =>
      have h0 := ih []
      simp only [List.map_nil] at h0
      simp only [List.map_nil, templateRun, specInterleave]
      rw [h0]
      simp [applyFormatter, String.empty_append]
    | cons f fs =>
      simp only [List.map_cons, templateRun, specInterleave]
      rw [ih fs]
      simp [applyFormatter]

theorem mergeLast_templateRun (d : DateTime) (H : List (Option DateTimeFormatter)) :
    ∀ (vts : List String) (w : String) (U2 : List String)
      (G2 : List (Option DateTimeFormatter)), vts.length = H.length + 1 →
      templateRun d (mergeLast vts w ++ U2) (H ++ G2)
        = templateRun d vts H ++ templateRun d (w :: U2) G2 := by
  induction H with
  | nil =>
    intro vts w U2 G2 hlen
    cases vts with
    | nil => simp at hlen
    | cons v vs =>
      cases vs with
      | nil =>
        simp only [mergeLast, List.nil_append, List.cons_append]
        rw [templateRun_cons_unfold d (v ++ w) U2 G2, templateRun_cons_unfold d w U2 G2]
        simp [templateRun, applyFormatter, String.append_assoc, String.append_empty,
          String.empty_append]
      | cons v' vs' => simp at hlen
  | cons h H ih =>
    intro vts w U2 G2 hlen
    cases vts with
    | nil => simp at hlen
    | cons v vs =>
      cases vs with
      | nil =>
        simp only [List.length_cons, List.length_nil] at hlen
        omega
      | cons v' vs' =>
        have hm : mergeLast (v :: v' :: vs') w = v :: mergeLast (v' :: vs') w := rfl
        have hlen' : (v' :: vs').length = H.length + 1 := by simpa using hlen
        rw [hm]
        simp only [List.cons_append, templateRun, List.append_eq]
        rw [ih (v' :: vs') w U2 G2 hlen']
        simp [String.append_assoc]

theorem mergeFirst_templateRun (d : DateTime) (u v : String) (vs X : List String)
    (fs : List (Option DateTimeFormatter)) :
    templateRun d (mergeFirst u (v :: vs) ++ X) fs
      = u ++ templateRun d ((v :: vs) ++ X) fs := by
  simp only [mergeFirst, List.cons_append]
  rw [templateRun_cons_unfold, templateRun_cons_unfold]
  simp [String.append_assoc]

theorem dateSeparatorLookup_const (k : String) (d1 d2 : DateTime) :
    applyFormatter (dateSeparatorLookup k) d1 = applyFormatter (dateSeparatorLookup k) d2 := by
  unfold dateSeparatorLookup
  split
  · rfl
  · split <;> rfl

theorem timeSeparatorLookup_const (k : String) (d1 d2 : DateTime) :
    applyFormatter (timeSeparatorLookup k) d1 = applyFormatter (timeSeparatorLookup k) d2 := by
  unfold timeSeparatorLookup
  split
  · rfl
  · split <;> rfl

theorem iso8601_apply (o : Iso8601Options) (d : DateTime) :
    iso8601 o d =
      year4 d ++ applyFormatter (dateSeparatorLookup (o.format.getD "extended")) d
        ++ month2 d ++ applyFormatter (dateSeparatorLookup (o.format.getD "extended")) d
        ++ day2 d ++ o.timeDelimiter.getD "T"
        ++ hours2 d ++ applyFormatter (timeSeparatorLookup (o.format.getD "extended")) d
        ++ minutes2 d ++ applyFormatter (timeSeparatorLookup (o.format.getD "extended")) d
        ++ applyFormatter (secondsLookup (o.round.getD "none")) d := by
  show dateTimeTemplate _ _ d = _
  rw [dateTimeTemplate_eq_templateRun]
  simp [templateRun, applyFormatter, String.append_assoc, String.empty_append,
    String.append_empty]

/-- C1: for every literal-text sequence, formatter sequence and DateTime,
the composed formatter returns exactly the interleaved concatenation
`texts[0] + f0(d) + texts[1] + ... + texts[n]`, substituting the empty
string for any formatter index beyond the supplied list; the composition
is total on mismatched lengths and performs no reordering, deduplication
or trimming. -/
theorem claim1_template_structural_law (texts : List String)
    (fs : List DateTimeFormatter) (d : DateTime) :
    dateTimeTemplate texts (fs.map some) d = specInterleave texts fs d := by
  rw [dateTimeTemplate_eq_templateRun, templateRun_map_some]

/-- C2: for every valid options record and every DateTime, `iso8601`
produces exactly the four-digit year, date separator, two-digit month,
date separator, two-digit day, time delimiter, two-digit hours, time
separator, two-digit minutes, time separator and the seconds formatter
selected by `round`, each selector depending only on its own option. -/
theorem claim2_iso8601_option_structure (o : Iso8601Options) (hv : ValidOptions o)
    (d : DateTime) :
    iso8601 o d =
      year4 d ++ specDateSeparator o ++ month2 d ++ specDateSeparator o
        ++ day2 d ++ specTimeDelimiter o ++ hours2 d ++ specTimeSeparator o
        ++ minutes2 d ++ specTimeSeparator o ++ specSecondsFormatter o d := by
  rw [iso8601_apply]
  obtain ⟨hf, hr, _⟩ := hv
  rcases hf with hf | hf | hf <;> rcases hr with hr | hr | hr | hr <;>
    simp [hf, hr, dateSeparatorLookup, timeSeparatorLookup, secondsLookup,
      specDateSeparator, specTimeSeparator, specTimeDelimiter, specSecondsFormatter,
      applyFormatter]

/-- Witness for C2 at `format = basic`, `round = ms`, `timeDelimiter = " "`
and the worked example date-time. -/
theorem claim2_witness :
    ValidOptions { format := some "basic", round := some "ms", timeDelimiter := some " " }
      ∧ iso8601 { format := some "basic", round := some "ms", timeDelimiter := some " " }
          exampleDateTime
        = year4 exampleDateTime
            ++ specDateSeparator
                { format := some "basic", round := some "ms", timeDelimiter := some " " }
            ++ month2 exampleDateTime
            ++ specDateSeparator
                { format := some "basic", round := some "ms", timeDelimiter := some " " }
            ++ day2 exampleDateTime
            ++ specTimeDelimiter
                { format := some "basic", round := some "ms", timeDelimiter := some " " }
            ++ hours2 exampleDateTime
            ++ specTimeSeparator
                { format := some "basic", round := some "ms", timeDelimiter := some " " }
            ++ minutes2 exampleDateTime
            ++ specTimeSeparator
                { format := some "basic", round := some "ms", timeDelimiter := some " " }
            ++ specSecondsFormatter
                { format := some "basic", round := some "ms", timeDelimiter := some " " }
                exampleDateTime :=
  ⟨by decide,
    claim2_iso8601_option_structure
      { format := some "basic", round := some "ms", timeDelimiter := some " " }
      (by decide) exampleDateTime⟩

/-- C3: at 2024-01-26T11:57:23.723615 with otherwise-default options,
`round = seconds` formats with no fractional part at all and `round = ms`
formats with exactly three fractional digits. -/
theorem claim3_iso8601_rounding_examples :
    iso8601 { round := some "seconds" } exampleDateTime = "2024-01-26T11:57:23"
      ∧ iso8601 { round := some "ms" } exampleDateTime = "2024-01-26T11:57:23.723" := by
  constructor <;> rfl

/-- C4: for every syntactically valid options record the construction of
the ISO-8601 formatter is total: every dispatch-table lookup succeeds, and
`iso8601` is exactly the well-defined composition of the selected
formatters. -/
theorem claim4_iso8601_total (o : Iso8601Options) (hv : ValidOptions o) :
    ∃ fa fb fc : DateTimeFormatter,
      dateSeparatorLookup (o.format.getD "extended") = some fa
        ∧ timeSeparatorLookup (o.format.getD "extended") = some fb
        ∧ secondsLookup (o.round.getD "none") = some fc
        ∧ ∀ d : DateTime,
            iso8601 o d =
              year4 d ++ fa d ++ month2 d ++ fa d ++ day2 d ++ o.timeDelimiter.getD "T"
                ++ hours2 d ++ fb d ++ minutes2 d ++ fb d ++ fc d := by
  obtain ⟨hf, hr, _⟩ := hv
  have hsep : ∃ fa, dateSeparatorLookup (o.format.getD "extended") = some fa := by
    rcases hf with hf | hf | hf
    · exact ⟨fun _ => "-", by simp [hf, dateSeparatorLookup]⟩
    · exact ⟨fun _ => "", by simp [hf, dateSeparatorLookup]⟩
    · exact ⟨fun _ => "-", by simp [hf, dateSeparatorLookup]⟩
  have htsep : ∃ fb, timeSeparatorLookup (o.format.getD "extended") = some fb := by
    rcases hf with hf | hf | hf
    · exact ⟨fun _ => ":", by simp [hf, timeSeparatorLookup]⟩
    · exact ⟨fun _ => "", by simp [hf, timeSeparatorLookup]⟩
    · exact ⟨fun _ => ":", by simp [hf, timeSeparatorLookup]⟩
  have hsec : ∃ fc, secondsLookup (o.round.getD "none") = some fc := by
    rcases hr with hr | hr | hr | hr
    · exact ⟨seconds2, by simp [hr, secondsLookup]⟩
    · exact ⟨seconds2, by simp [hr, secondsLookup]⟩
    · exact ⟨floorSeconds2, by simp [hr, secondsLookup]⟩
    · exact ⟨secondsMs, by simp [hr, secondsLookup]⟩
  obtain ⟨fa, hfa⟩ := hsep
  obtain ⟨fb, hfb⟩ := htsep
  obtain ⟨fc, hfc⟩ := hsec
  refine ⟨fa, fb, fc, hfa, hfb, hfc, fun d => ?_⟩
  rw [iso8601_apply, hfa, hfb, hfc]
  rfl

/-- Witness for C4 at the all-defaults options record. -/
theorem claim4_witness :
    ∃ fa fb fc : DateTimeFormatter,
      dateSeparatorLookup (({} : Iso8601Options).format.getD "extended") = some fa
        ∧ timeSeparatorLookup (({} : Iso8601Options).format.getD "extended") = some fb
        ∧ secondsLookup (({} : Iso8601Options).round.getD "none") = some fc
        ∧ ∀ d : DateTime,
            iso8601 {} d =
              year4 d ++ fa d ++ month2 d ++ fa d ++ day2 d
                ++ ({} : Iso8601Options).timeDelimiter.getD "T"
                ++ hours2 d ++ fb d ++ minutes2 d ++ fb d ++ fc d :=
  claim4_iso8601_total {} (by decide)

/-- C5: under Except-valued field formatters, the first failing formatter
in interleaving order aborts the whole composed call with exactly its
error, formatters at later positions never influence the result, and no
partial string is returned. -/
theorem claim5_error_propagation {ε : Type} (texts : List String)
    (pre rest : List (Option (DateTimeFormatterE ε))) (f : DateTimeFormatterE ε)
    (d : DateTime) (e : ε) (hlen : pre.length < texts.length)
    (hpre : ∀ g ∈ pre, ∀ g', g = some g' → ∃ s, g' d = Except.ok s)
    (hf : f d = Except.error e) :
    dateTimeTemplateE texts (pre ++ some f :: rest) d = Except.error e := by
  induction pre generalizing texts with
  | nil =>
    cases texts with
    | nil => simp at hlen
    | cons t ts =>
      simp only [List.nil_append, dateTimeTemplateE, hf]
      rfl
  | cons g pre ih =>
    cases texts with
    | nil => simp at hlen
    | cons t ts =>
      have hlen' : pre.length < ts.length := by simpa using hlen
      have hrec := ih ts hlen' fun g' hg' => hpre g' (List.mem_cons_of_mem _ hg')
      cases g with
      | none =>
        simp only [List.cons_append, dateTimeTemplateE, List.append_eq, hrec]
        rfl
      | some g' =>
        obtain ⟨s, hs⟩ := hpre (some g') (List.mem_cons_self _ _) g' rfl
        simp only [List.cons_append, dateTimeTemplateE, List.append_eq, hs, hrec]
        rfl

/-- Witness for C5: a succeeding formatter, then one failing with "boom",
then one more that is never reached. -/
theorem claim5_witness :
    dateTimeTemplateE ["a", "b", "c"]
      ([some fun _ => Except.ok "x"]
        ++ some (fun _ => Except.error "boom") :: [some fun _ => Except.ok "y"])
      exampleDateTime = Except.error ("boom" : String) :=
  claim5_error_propagation ["a", "b", "c"] [some fun _ => Except.ok "x"]
    [some fun _ => Except.ok "y"] (fun _ => Except.error "boom") exampleDateTime "boom"
    (by decide)
    (by
      intro g hg g' hg'
      rw [List.mem_singleton] at hg
      subst hg
      have hx : (some fun _ => Except.ok "x") = some g' → ∃ s, g' exampleDateTime
          = Except.ok s := by
        intro hsome
        have := Option.some.inj hsome
        subst this
        exact ⟨"x", rfl⟩
      exact hx hg')
    rfl

/-- C6 counterexample: with the malformed option `format = "full"`, the
output is not the default-extended output the claim predicts — the
dispatch lookup yields no separator formatter and both separators render
as the empty string. -/
theorem claim6_counterexample :
    iso8601 { format := some "full" } exampleDateTime = "20240126T115723.723615"
      ∧ iso8601 {} exampleDateTime = "2024-01-26T11:57:23.723615"
      ∧ iso8601 { format := some "full" } exampleDateTime ≠ iso8601 {} exampleDateTime :=
  ⟨rfl, rfl, by decide⟩

/-- C6 (amended): a missing `format` or `round` field behaves as its
default, but a malformed value outside the documented domain that is not
the name of an `Object.prototype` member does not: it does not fail, yet a
malformed `format` produces the same output as `format = "basic"` (both
separators empty), and a malformed `round` produces the
`round = "seconds"` output with the seconds field replaced by the empty
string. (Malformed values naming inherited `Object.prototype` members
instead retrieve the inherited member and may render prototype output or
throw; they are outside this model's scope.) -/
theorem claim6_missing_defaults_malformed_lenient
    (fm rd td : Option String) (f g : String) (d : DateTime)
    (hf1 : f ≠ "basic") (hf2 : f ≠ "extended") (hf3 : f ∉ objectPrototypeProps)
    (hg1 : g ≠ "none") (hg2 : g ≠ "seconds") (hg3 : g ≠ "ms")
    (hg4 : g ∉ objectPrototypeProps) :
    iso8601 { format := Option.none, round := rd, timeDelimiter := td } d
        = iso8601 { format := some "extended", round := rd, timeDelimiter := td } d
      ∧ iso8601 { format := fm, round := Option.none, timeDelimiter := td } d
          = iso8601 { format := fm, round := some "none", timeDelimiter := td } d
      ∧ iso8601 { format := some f, round := rd, timeDelimiter := td } d
          = iso8601 { format := some "basic", round := rd, timeDelimiter := td } d
      ∧ iso8601 { format := fm, round := some g, timeDelimiter := td } d ++ floorSeconds2 d
          = iso8601 { format := fm, round := some "seconds", timeDelimiter := td } d := by
  refine ⟨?_, ?_, ?_, ?_⟩
  · simp [iso8601_apply]
  · simp [iso8601_apply]
  · simp [iso8601_apply, dateSeparatorLookup, timeSeparatorLookup, hf1, hf2, applyFormatter]
  · simp [iso8601_apply, secondsLookup, hg1, hg2, hg3, applyFormatter, String.append_assoc,
      String.append_empty]

/-- Witness for C6 (amended) with the malformed values `format = "full"`
and `round = "mins"` at the worked example date-time. -/
theorem claim6_witness :
    iso8601 { format := Option.none, round := some "mins", timeDelimiter := Option.none }
          exampleDateTime
        = iso8601
            { format := some "extended", round := some "mins", timeDelimiter := Option.none }
            exampleDateTime
      ∧ iso8601 { format := some "full", round := Option.none, timeDelimiter := Option.none }
            exampleDateTime
          = iso8601
              { format := some "full", round := some "none", timeDelimiter := Option.none }
              exampleDateTime
      ∧ iso8601 { format := some "full", round := some "mins", timeDelimiter := Option.none }
            exampleDateTime
          = iso8601
              { format := some "basic", round := some "mins", timeDelimiter := Option.none }
              exampleDateTime
      ∧ iso8601 { format := some "full", round := some "mins", timeDelimiter := Option.none }
              exampleDateTime
            ++ floorSeconds2 exampleDateTime
          = iso8601
              { format := some "full", round := some "seconds", timeDelimiter := Option.none }
              exampleDateTime :=
  claim6_missing_defaults_malformed_lenient (some "full") (some "mins") Option.none
    "full" "mins" exampleDateTime (by decide) (by decide) (by decide) (by decide) (by decide)
    (by decide) (by decide)

/-- C7: embedding a composed formatter as a placeholder of an outer
template yields, on every DateTime, the same string as the single flat
template obtained by splicing the inner literal/formatter sequence into
the outer one at that placeholder position. -/
theorem claim7_nesting_associativity (U1 U2 : List String) (u w : String)
    (G1 G2 H : List (Option DateTimeFormatter)) (vts : List String) (d : DateTime)
    (h1 : U1.length = G1.length) (h2 : vts.length = H.length + 1) :
    dateTimeTemplate (U1 ++ u :: w :: U2) (G1 ++ some (dateTimeTemplate vts H) :: G2) d
      = dateTimeTemplate (U1 ++ spliceTexts u vts w ++ U2) (G1 ++ H ++ G2) d := by
  obtain ⟨v, vs, rfl⟩ : ∃ v vs, vts = v :: vs := by
    cases vts with
    | nil => simp at h2
    | cons v vs => exact ⟨v, vs, rfl⟩
  rw [dateTimeTemplate_eq_templateRun, dateTimeTemplate_eq_templateRun]
  rw [templateRun_append d U1 (u :: w :: U2) G1 (some (dateTimeTemplate (v :: vs) H) :: G2) h1]
  rw [List.append_assoc U1 (spliceTexts u (v :: vs) w) U2, List.append_assoc G1 H G2]
  rw [templateRun_append d U1 (spliceTexts u (v :: vs) w ++ U2) G1 (H ++ G2) h1]
  congr 1
  rw [spliceTexts]
  have hmf : (mergeFirst u (v :: vs)).length = H.length + 1 := by
    simpa [mergeFirst] using h2
  rw [mergeLast_templateRun d H (mergeFirst u (v :: vs)) w U2 G2 hmf]
  have hX := mergeFirst_templateRun d u v vs [] H
  simp only [List.append_nil] at hX
  rw [hX]
  simp only [templateRun, applyFormatter]
  rw [dateTimeTemplate_eq_templateRun]

/-- Witness for C7: a two-fragment inner template with one formatter,
embedded between the outer fragments, at the worked example date-time. -/
theorem claim7_witness :
    dateTimeTemplate ["D ", "<", ">", "!"]
        [some year4, some (dateTimeTemplate ["h=", ""] [some hours2]), some month2]
        exampleDateTime
      = dateTimeTemplate (["D "] ++ spliceTexts "<" ["h=", ""] ">" ++ ["!"])
          [some year4, some hours2, some month2] exampleDateTime :=
  claim7_nesting_associativity ["D "] ["!"] "<" ">" [some year4] [some month2]
    [some hours2] ["h=", ""] exampleDateTime (by decide) (by decide)

/-- C8: the composed formatter and the ISO-8601 formatter are
deterministic and stateless: applied to equal DateTime values they return
the identical string. -/
theorem claim8_determinism (texts : List String) (fs : List (Option DateTimeFormatter))
    (o : Iso8601Options) (d d' : DateTime) (h : d = d') :
    dateTimeTemplate texts fs d = dateTimeTemplate texts fs d'
      ∧ iso8601 o d = iso8601 o d' := by
  subst h
  exact ⟨rfl, rfl⟩

/-- Witness for C8 at a concrete template and the worked example
date-time. -/
theorem claim8_witness :
    dateTimeTemplate ["y", ""] [some year4] exampleDateTime
        = dateTimeTemplate ["y", ""] [some year4] exampleDateTime
      ∧ iso8601 {} exampleDateTime = iso8601 {} exampleDateTime :=
  claim8_determinism ["y", ""] [some year4] {} exampleDateTime exampleDateTime rfl

/-- C9: when more formatters than literal fragments are supplied, only the
first `texts.length` formatters influence the output — the call equals the
same call with the formatter list truncated — and with no literal
fragments the output is empty. -/
theorem claim9_excess_formatters_ignored (texts : List String)
    (fs : List DateTimeFormatter) (d : DateTime) (h : texts.length < fs.length) :
    dateTimeTemplate texts (fs.map some) d
        = dateTimeTemplate texts ((fs.take texts.length).map some) d
      ∧ dateTimeTemplate [] (fs.map some) d = "" := by
  constructor
  · rw [dateTimeTemplate_eq_templateRun, dateTimeTemplate_eq_templateRun, List.map_take,
      templateRun_take d texts (fs.map some)]
  · rfl

/-- Witness for C9: three formatters against a single literal fragment. -/
theorem claim9_witness :
    dateTimeTemplate ["go"] ([year4, month2, day2].map some) exampleDateTime
        = dateTimeTemplate ["go"]
            (([year4, month2, day2].take (["go"] : List String).length).map some)
            exampleDateTime
      ∧ dateTimeTemplate [] ([year4, month2, day2].map some) exampleDateTime = "" :=
  claim9_excess_formatters_ignored ["go"] [year4, month2, day2] exampleDateTime
    (by decide)

/-- C10: the ISO-8601 output depends on the DateTime only through the six
selected field formatters; when they agree on two DateTime values (the
separators and time delimiter ignore the DateTime entirely), the outputs
are identical. -/
theorem claim10_output_determined_by_fields (o : Iso8601Options) (d1 d2 : DateTime)
    (hy : year4 d1 = year4 d2) (hmo : month2 d1 = month2 d2) (hd : day2 d1 = day2 d2)
    (hh : hours2 d1 = hours2 d2) (hmi : minutes2 d1 = minutes2 d2)
    (hs : applyFormatter (secondsLookup (o.round.getD "none")) d1
      = applyFormatter (secondsLookup (o.round.getD "none")) d2) :
    iso8601 o d1 = iso8601 o d2 := by
  rw [iso8601_apply, iso8601_apply, hy, hmo, hd, hh, hmi, hs,
    dateSeparatorLookup_const (o.format.getD "extended") d1 d2,
    timeSeparatorLookup_const (o.format.getD "extended") d1 d2]

/-- Witness for C10: two DateTime values differing only in the day-of-week
component, which no selected formatter reads. -/
theorem claim10_witness :
    iso8601 {} exampleDateTime
      = iso8601 {}
          { year := 2024, month := 1, day := 26, hours := 11, minutes := 57,
            secondsWhole := 23, secondsFrac := "723615", dayOfWeek := 0 } :=
  claim10_output_determined_by_fields {} exampleDateTime
    { year := 2024, month := 1, day := 26, hours := 11, minutes := 57,
      secondsWhole := 23, secondsFrac := "723615", dayOfWeek := 0 }
    rfl rfl rfl rfl rfl rfl
